import Mathlib

/-!
Formal model of the explainability core of the SBS deepfake-detection
repository (`ml_app/explainability/`): the frame-probability timeline,
the audio analyzer, the rule-based fake-type classifier and the threat-level
scorer.  Every definition is a shallow embedding of the corresponding Python
function; machine floats are modelled as exact rationals (`ℚ`) where the
source arithmetic is rational, and as reals (`ℝ`) where the source uses
square roots or trigonometry (`np.std`, `np.sqrt`, `np.hanning`, `np.fft`).
Python dictionaries read with `dict.get(key, default)` are modelled as
structures of `Option` fields read with `Option.getD`.
-/

namespace SBS

/-! ## Shared numeric helpers -/

/-- `np.mean` of a list (sum divided by length). -/
def listMean {K : Type} [DivisionRing K] (l : List K) : K :=
  l.sum / (l.length : K)

/-- `np.clip(x, lo, hi)`. -/
def npClip {K : Type} [LinearOrder K] (lo hi x : K) : K :=
  min hi (max lo x)

/-- Python slice `l[start : start+len]`. -/
def listSlice {K : Type} (l : List K) (start len : ℕ) : List K :=
  (l.drop start).take len

/-- Indices of Python `range(0, n, hop)` for `hop > 0`:
`0, hop, 2*hop, …` strictly below `n`. -/
def hopRange (n hop : ℕ) : List ℕ :=
  (List.range ((n + hop - 1) / hop)).map (· * hop)

/-- `np.argmax`: index of the first occurrence of the maximum value. -/
def argmaxIdxAux {K : Type} [LinearOrder K] : List K → ℕ → K → ℕ → ℕ
  | [], bestIdx, _, _ => bestIdx
  | x :: xs, bestIdx, bestVal, cur =>
      if bestVal < x then argmaxIdxAux xs cur x (cur + 1)
      else argmaxIdxAux xs bestIdx bestVal (cur + 1)

/-- `np.argmax` over a list (`0` on the empty list, as a neutral default). -/
def argmaxIdx {K : Type} [LinearOrder K] : List K → ℕ
  | [] => 0
  | x :: xs => argmaxIdxAux xs 0 x 1

/-! ## FrameProbabilityTimeline (`timeline.py`)

`add_frame` applies a softmax to a two-element logits vector
(index 0 = FAKE, index 1 = REAL), appends the entry and flags an anomaly
when the fake probability jumps by more than `anomaly_threshold` from the
previous frame.  The softmax is modelled exactly with `Real.exp`. -/

/-- `FrameProbability` dataclass of `timeline.py`. -/
structure FrameProbability where
  frame_index : ℕ
  fake_probability : ℝ
  real_probability : ℝ
  timestamp_ms : ℝ
  is_anomaly : Bool
  anomaly_score : ℝ
deriving Inhabited

/-- `FrameProbabilityTimeline` state: configuration plus the accumulated
`frame_data` list (the source's free-form `metadata` dict carries no
analysis state and is not modelled). -/
structure FrameProbabilityTimeline where
  fps : ℝ
  anomaly_threshold : ℝ
  smoothing_window : ℕ
  frame_data : List FrameProbability

/-- A fresh timeline, as built by `__init__` / `reset`. -/
def FrameProbabilityTimeline.mk0 (fps anomaly_threshold : ℝ)
    (smoothing_window : ℕ) : FrameProbabilityTimeline :=
  ⟨fps, anomaly_threshold, smoothing_window, []⟩

/-- Two-class softmax, `F.softmax` on the logits `(l0, l1)`;
component 0 (FAKE probability). -/
noncomputable def softmax2_fake (l0 l1 : ℝ) : ℝ :=
  Real.exp l0 / (Real.exp l0 + Real.exp l1)

/-- Two-class softmax, component 1 (REAL probability). -/
noncomputable def softmax2_real (l0 l1 : ℝ) : ℝ :=
  Real.exp l1 / (Real.exp l0 + Real.exp l1)

/-- `FrameProbabilityTimeline.add_frame` for a two-element logits vector
`(l0, l1)` (index 0 = FAKE, index 1 = REAL): softmax, optional timestamp
defaulting to `frame_index / fps * 1000`, append, then `_detect_anomaly`
on the newly appended entry (which only sets the anomaly flag/score). -/
noncomputable def addFrame (tl : FrameProbabilityTimeline) (frame_index : ℕ)
    (l0 l1 : ℝ) (timestamp_ms : Option ℝ) : FrameProbabilityTimeline :=
  let fake_prob := softmax2_fake l0 l1
  let real_prob := softmax2_real l0 l1
  let ts := match timestamp_ms with
    | some t => t
    | none => ((frame_index : ℝ) / tl.fps) * 1000
  let base : FrameProbability :=
    ⟨frame_index, fake_prob, real_prob, ts, false, 0⟩
  let entry := match tl.frame_data.getLast? with
    | none => base
    | some prev =>
        let change := |fake_prob - prev.fake_probability|
        if tl.anomaly_threshold < change then
          { base with is_anomaly := true, anomaly_score := change }
        else base
  { tl with frame_data := tl.frame_data ++ [entry] }

/-- One `add_frame` call: frame index, the two logits, optional timestamp. -/
structure AddFrameCall where
  frame_index : ℕ
  l0 : ℝ
  l1 : ℝ
  timestamp_ms : Option ℝ

/-- A timeline built by a sequence of `add_frame` calls on a fresh
(`reset`) timeline. -/
noncomputable def buildTimeline (fps anomaly_threshold : ℝ)
    (smoothing_window : ℕ) (calls : List AddFrameCall) :
    FrameProbabilityTimeline :=
  calls.foldl (fun t c => addFrame t c.frame_index c.l0 c.l1 c.timestamp_ms)
    (FrameProbabilityTimeline.mk0 fps anomaly_threshold smoothing_window)

/-- `FrameProbabilityTimeline.add_batch`: optionally override `fps`, then
`add_frame` for each logits pair with consecutive indices from
`start_frame` (timestamps derived from fps, as in the source). -/
noncomputable def addBatch (tl : FrameProbabilityTimeline) (start_frame : ℕ)
    (logits_sequence : List (ℝ × ℝ)) (fps : Option ℝ) :
    FrameProbabilityTimeline :=
  let tl' := { tl with fps := fps.getD tl.fps }
  logits_sequence.enum.foldl
    (fun t il => addFrame t (start_frame + il.1) il.2.1 il.2.2 none) tl'

/-- The mean over the truncated centered window of half-width
`w / 2` (integer division) around index `i`: Python
`probs[max(0, i - w//2) : min(n, i + w//2 + 1)]` followed by `np.mean`. -/
def centeredWindowMean {K : Type} [LinearOrderedField K]
    (w : ℕ) (probs : List K) (i : ℕ) : K :=
  let s := i - w / 2
  let e := min probs.length (i + w / 2 + 1)
  listMean (listSlice probs s (e - s))

/-- Core of `get_smoothed_probabilities`, acting on the list of per-frame
fake probabilities: empty list stays empty; a list shorter than the
smoothing window is returned unchanged; otherwise each entry becomes the
truncated centered window mean. -/
def smoothedList {K : Type} [LinearOrderedField K]
    (w : ℕ) (probs : List K) : List K :=
  if probs = [] then []
  else if probs.length < w then probs
  else (List.range probs.length).map (centeredWindowMean w probs)

/-- `FrameProbabilityTimeline.get_smoothed_probabilities`. -/
noncomputable def get_smoothed_probabilities
    (tl : FrameProbabilityTimeline) : List ℝ :=
  smoothedList tl.smoothing_window (tl.frame_data.map (·.fake_probability))

/-- Modelled from the spec: "Smoothing: centered moving average,
configurable window (default 5)", "the window truncated at the ends of the
sequence" — every position is the mean of the truncated centered window,
with no special case for short sequences. -/
def centeredMovingAverageSpec {K : Type} [LinearOrderedField K]
    (w : ℕ) (probs : List K) : List K :=
  (List.range probs.length).map (centeredWindowMean w probs)

/-! ## AudioAnalyzer (`multimodal.py`)

The jitter pipeline (`compute_jitter`) is sqrt-free and is modelled
generically over any linear ordered field (instantiated at `ℚ` for
concrete evaluation and at `ℝ` inside `analyze_audio`); pitch, energy and
spectral features need `np.std` / `np.sqrt` / `np.fft` and are modelled
over `ℝ`. -/

/-- `np.where(np.diff(np.signbit(samples)))[0]`: the indices `i` at which
the sign bit (`x < 0`) of consecutive samples differs. -/
def zeroCrossings {K : Type} [LinearOrderedField K] (samples : List K) :
    List ℕ :=
  (List.range (samples.length - 1)).filter (fun i =>
    decide (samples.getD i 0 < 0) != decide (samples.getD (i + 1) 0 < 0))

/-- The pitch periods of `compute_jitter`: for
`i = 0, 2, 4, … < len(zc) - 2`, the spacing `zc[i+2] - zc[i]`, kept when
strictly between 32 and 640 samples. -/
def periodsFrom (zc : List ℕ) : List ℕ :=
  (List.range ((zc.length - 1) / 2)).filterMap (fun j =>
    let p := zc.getD (2 * j + 2) 0 - zc.getD (2 * j) 0
    if 32 < p ∧ p < 640 then some p else none)

/-- The valid zero-crossing-derived pitch periods of an audio signal. -/
def pitchPeriods {K : Type} [LinearOrderedField K] (samples : List K) :
    List ℕ :=
  periodsFrom (zeroCrossings samples)

/-- The jitter value of `compute_jitter`: mean absolute consecutive period
difference divided by (mean period + 1e-6). -/
def jitterOf {K : Type} [LinearOrderedField K] (samples : List K) : K :=
  let periods : List K := (pitchPeriods samples).map (Nat.cast)
  let period_diffs := (periods.zip periods.tail).map (fun p => |p.2 - p.1|)
  listMean period_diffs / (listMean periods + 1 / 1000000)

/-- `AudioAnalyzer.compute_jitter`: `(jitter_mean, jitter_score)`.
Returns the neutral `(0, 50)` with fewer than 4 zero crossings or fewer
than 3 valid periods; otherwise scores the "too perfect" branch (< 0.001)
as 80, the "too variable" branch (> 0.02) as `min 100 (50 + jitter*1000)`,
and the rest linearly as `jitter * 2500`, clipped to [0, 100].
The `sample_rate` and `frame_size` arguments are unused by the source
body and kept for signature fidelity. -/
def compute_jitter {K : Type} [LinearOrderedField K] (samples : List K)
    (_sample_rate _frame_size : ℕ) : K × K :=
  let zc := zeroCrossings samples
  if zc.length < 4 then (0, 50)
  else
    let periods := pitchPeriods samples
    if periods.length < 3 then (0, 50)
    else
      let jitter := jitterOf samples
      let jitter_score : K :=
        if jitter < 1 / 1000 then 80
        else if jitter > 1 / 50 then min 100 (50 + jitter * 1000)
        else jitter * 2500
      (jitter, npClip 0 100 jitter_score)

/-- Autocorrelation at lag `l`:
`np.correlate(frame, frame, 'full')[N-1:]` entry `l`,
i.e. `Σ_{n} frame[n] * frame[n+l]`. -/
def autocorrAt (frame : List ℝ) (l : ℕ) : ℝ :=
  ((List.range (frame.length - l)).map
    (fun n => frame.getD n 0 * frame.getD (n + l) 0)).sum

/-- Population standard deviation, `np.std`. -/
noncomputable def npStd (l : List ℝ) : ℝ :=
  let m := listMean l
  Real.sqrt (listMean (l.map (fun x => (x - m) ^ 2)))

/-- `AudioAnalyzer.compute_pitch_features`:
`(pitch_mean, pitch_std, pitch_variance_score)`.  Per 1024-sample window
(hop 512), autocorrelate, find the strongest peak in the 50–500 Hz lag
range; keep the pitch when the peak exceeds 0.3 of the lag-0 energy and
lies strictly inside (50, 500) Hz.  Aggregates mean/std and maps the
coefficient of variation to the variance score's three branches. -/
noncomputable def compute_pitch_features (samples : List ℝ)
    (sample_rate : ℕ) (frame_size hop_size : ℕ) : ℝ × ℝ × ℝ :=
  let pitches : List ℝ :=
    (hopRange (samples.length - frame_size) hop_size).filterMap (fun i =>
      let frame := listSlice samples i frame_size
      let corr := (List.range frame.length).map (autocorrAt frame)
      let min_lag := sample_rate / 500
      let max_lag := sample_rate / 50
      if max_lag > corr.length then none
      else
        let search_region := listSlice corr min_lag (max_lag - min_lag)
        if search_region = [] then none
        else
          let peak_idx := argmaxIdx search_region + min_lag
          if 0 < peak_idx ∧ corr.getD peak_idx 0 > 0.3 * corr.getD 0 0 then
            let pitch := (sample_rate : ℝ) / (peak_idx : ℝ)
            if 50 < pitch ∧ pitch < 500 then some pitch else none
          else none)
  if pitches = [] then (0, 0, 50)
  else
    let pitch_mean := listMean pitches
    let pitch_std := npStd pitches
    let cv := pitch_std / (pitch_mean + 1 / 1000000)
    let variance_score :=
      if cv < 0.05 then 70 + (0.05 - cv) * 600
      else if cv > 0.3 then 50 + (cv - 0.3) * 100
      else cv * 100
    (pitch_mean, pitch_std, npClip 0 100 variance_score)

/-- `AudioAnalyzer.compute_energy_profile`: RMS per equal-length segment
(`len // num_segments` samples each); empty when the segment size is 0. -/
noncomputable def compute_energy_profile (samples : List ℝ)
    (num_segments : ℕ) : List ℝ :=
  let segment_size := samples.length / num_segments
  if segment_size = 0 then []
  else (List.range num_segments).map (fun i =>
    Real.sqrt (listMean ((listSlice samples (i * segment_size)
      segment_size).map (fun x => x ^ 2))))

/-- `AudioAnalyzer.compute_zero_crossing_rate`: sign-bit changes divided
by the number of samples. -/
noncomputable def compute_zero_crossing_rate (samples : List ℝ) : ℝ :=
  ((zeroCrossings samples).length : ℝ) / (samples.length : ℝ)

/-- `np.hanning(M)` coefficient `n`. -/
noncomputable def hanningAt (M n : ℕ) : ℝ :=
  1 / 2 - 1 / 2 * Real.cos (2 * Real.pi * (n : ℝ) / ((M : ℝ) - 1))

/-- Magnitude of bin `k` of `np.fft.rfft` on `x` (length `N`):
`|Σ_n x_n e^(-2πikn/N)|` written with real cosine/sine sums. -/
noncomputable def rfftMag (x : List ℝ) (k : ℕ) : ℝ :=
  let N := x.length
  let angle := fun n : ℕ => 2 * Real.pi * (k : ℝ) * (n : ℝ) / (N : ℝ)
  let re := ((List.range N).map (fun n => x.getD n 0 * Real.cos (angle n))).sum
  let im := ((List.range N).map (fun n => x.getD n 0 * Real.sin (angle n))).sum
  Real.sqrt (re ^ 2 + im ^ 2)

/-- `AudioAnalyzer.compute_spectral_centroid`: per 2048-sample window
(hop 1024), Hanning-window the frame, take the rfft magnitude spectrum and
the spectral centroid `Σ f·s / Σ s` (skipping windows with zero spectrum);
mean over windows, 0 when there are none. -/
noncomputable def compute_spectral_centroid (samples : List ℝ)
    (sample_rate : ℕ) (frame_size : ℕ) : ℝ :=
  let centroids : List ℝ :=
    (hopRange (samples.length - frame_size) (frame_size / 2)).filterMap
      (fun i =>
        let frame := listSlice samples i frame_size
        let windowed := (frame.enum).map
          (fun nx => nx.2 * hanningAt frame.length nx.1)
        let spectrum := (List.range (frame.length / 2 + 1)).map
          (rfftMag windowed)
        let freqs := (List.range (frame.length / 2 + 1)).map
          (fun k => (k : ℝ) * (sample_rate : ℝ) / (frame.length : ℝ))
        if spectrum.sum > 0 then
          some (((freqs.zip spectrum).map (fun p => p.1 * p.2)).sum
            / spectrum.sum)
        else none)
  if centroids = [] then 0 else listMean centroids

/-- `AudioFeatures` dataclass of `multimodal.py`. -/
structure AudioFeatures where
  duration_seconds : ℝ
  sample_rate : ℕ
  pitch_mean : ℝ
  pitch_std : ℝ
  pitch_variance_score : ℝ
  jitter_mean : ℝ
  jitter_score : ℝ
  energy_profile : List ℝ
  zero_crossing_rate : ℝ
  spectral_centroid_mean : ℝ
  is_valid : Bool
  error_message : Option String

/-- The outcome of the external extraction/decoding steps feeding
`AudioAnalyzer.analyze_audio`: `none` when `extract_audio` fails (no audio
track, ffmpeg failure, empty output file); `some none` when
`load_audio_data` fails to parse the WAV (it catches every exception and
returns `(None, 0)`); `some (some (samples, rate))` on success. -/
abbrev ExtractOutcome : Type := Option (Option (List ℝ × ℕ))

/-- `AudioAnalyzer.analyze_audio`, as a total function of the extraction
outcome: each failure path returns `AudioFeatures` with `is_valid = False`
and an explanatory `error_message` (the Python function raises on none of
these paths); on success all features are computed from the samples. -/
noncomputable def analyze_audio_features (outcome : ExtractOutcome) :
    AudioFeatures :=
  match outcome with
  | none =>
      ⟨0, 0, 0, 0, 50, 0, 50, [], 0, 0, false, some "Failed to extract audio"⟩
  | some none =>
      ⟨0, 0, 0, 0, 50, 0, 50, [], 0, 0, false, some "Failed to load audio data"⟩
  | some (some (samples, sample_rate)) =>
      if samples.length = 0 then
        ⟨0, 0, 0, 0, 50, 0, 50, [], 0, 0, false,
          some "Failed to load audio data"⟩
      else
        let duration := (samples.length : ℝ) / (sample_rate : ℝ)
        let pf := compute_pitch_features samples sample_rate 1024 512
        let jt := compute_jitter samples sample_rate 1024
        ⟨duration, sample_rate, pf.1, pf.2.1, pf.2.2, jt.1, jt.2,
          compute_energy_profile samples 50,
          compute_zero_crossing_rate samples,
          compute_spectral_centroid samples sample_rate 2048,
          true, none⟩

/-! ## Shared input dictionaries

The classifier and the threat scorer consume plain dictionaries produced
by the upstream analyzers; each is modelled as a structure of `Option`
fields so that the per-call-site `dict.get(key, default)` defaults stay
visible. -/

/-- The `model_prediction` dict: `prediction_label` ('FAKE'/'REAL') and
`confidence` (percent). -/
structure ModelPrediction where
  prediction_label : String
  confidence : ℚ

/-- The forensics-metrics dict fields read by the classifier and the
threat scorer; all numeric fields are optional percentages. -/
structure ForensicsInput where
  face_consistency_score : Option ℚ
  temporal_stability_score : Option ℚ
  eye_blink_score : Option ℚ
  compression_artifact_score : Option ℚ
  overall_forensics_score : Option ℚ
  frame_count : Option ℕ

/-- The `lip_sync_features` sub-dict (only `correlation` is read). -/
structure LipSyncFeaturesInput where
  correlation : Option ℚ

/-- The `audio_features` sub-dict (only `is_valid` is read, by
`_calculate_confidence`). -/
structure AudioFeaturesInput where
  is_valid : Bool

/-- The multimodal-metrics dict fields read downstream. -/
structure MultimodalInput where
  lip_sync_score : Option ℚ
  audio_spoof_score : Option ℚ
  combined_score : Option ℚ
  lip_sync_features : Option LipSyncFeaturesInput
  audio_features : Option AudioFeaturesInput

/-- The timeline-statistics dict fields read downstream. -/
structure TimelineStatsInput where
  mean_fake_probability : Option ℚ
  temporal_variance : Option ℚ
  anomaly_ratio : Option ℚ
  temporal_consistency_score : Option ℚ

/-- The fake-type-result dict read by `_score_fake_type`: `type` (a
`FakeType` value string) and `confidence`. -/
structure FakeTypeInput where
  type : String
  confidence : ℚ

/-! ## FakeTypeClassifier (`classifier.py`) -/

/-- `FakeType` enum. -/
inductive FakeType where
  | authentic
  | gan_face_swap
  | lip_sync
  | face_reenactment
  | unknown_manipulation
deriving DecidableEq

/-- The per-type accumulated rule scores (`scores` dict in `classify`). -/
structure TypeScores where
  authentic : ℚ
  gan_face_swap : ℚ
  lip_sync : ℚ
  face_reenactment : ℚ
  unknown_manipulation : ℚ
deriving DecidableEq

/-- Score of one bucket. -/
def TypeScores.get (s : TypeScores) : FakeType → ℚ
  | .authentic => s.authentic
  | .gan_face_swap => s.gan_face_swap
  | .lip_sync => s.lip_sync
  | .face_reenactment => s.face_reenactment
  | .unknown_manipulation => s.unknown_manipulation

/-- The literal evidence strings of `classify`, modelled as tagged values
(the `f"..."` number formatting is presentation-level). -/
inductive ClassifierEvidence where
  | modelPredictsReal (confidence : ℚ)
  | modelPredictsFake (confidence : ℚ)
  | lowFaceConsistency (v : ℚ)
  | lowTemporalStability (v : ℚ)
  | abnormalBlinkPattern (v : ℚ)
  | highCompressionArtifacts (v : ℚ)
  | poorLipAudioSync (v : ℚ)
  | audioSpoofingIndicators (v : ℚ)
  | lowAudioVisualCorrelation (v : ℚ)
  | highTemporalVariance (v : ℚ)
  | highAnomalyRate (v : ℚ)
  | consistentlyHighFakeProb (v : ℚ)
deriving DecidableEq

/-- `FakeTypeClassifier.THRESHOLDS` (the entries used by the analysis
functions). -/
structure ClassifierThresholds where
  face_swap_face_consistency : ℚ
  face_swap_temporal_stability : ℚ
  lip_sync_audio_mismatch : ℚ
  artifact_threshold : ℚ

/-- Default classifier thresholds. -/
def defaultClassifierThresholds : ClassifierThresholds :=
  ⟨60, 55, 40, 50⟩

/-- `FakeTypeClassifier._analyze_forensics`: sequential rule updates of
the score dict and evidence list. -/
def analyzeForensicsRules (th : ClassifierThresholds) (m : ForensicsInput)
    (acc : TypeScores × List ClassifierEvidence) :
    TypeScores × List ClassifierEvidence :=
  let (s, ev) := acc
  let face_score := m.face_consistency_score.getD 100
  let (s, ev) :=
    if face_score < th.face_swap_face_consistency then
      ({ s with gan_face_swap := s.gan_face_swap + 25 },
        ev ++ [.lowFaceConsistency face_score])
    else ({ s with authentic := s.authentic + 15 }, ev)
  let stability_score := m.temporal_stability_score.getD 100
  let (s, ev) :=
    if stability_score < th.face_swap_temporal_stability then
      ({ s with gan_face_swap := s.gan_face_swap + 15,
                face_reenactment := s.face_reenactment + 10 },
        ev ++ [.lowTemporalStability stability_score])
    else (s, ev)
  let blink_score := m.eye_blink_score.getD 50
  let (s, ev) :=
    if blink_score < 30 then
      ({ s with gan_face_swap := s.gan_face_swap + 20,
                face_reenactment := s.face_reenactment + 15 },
        ev ++ [.abnormalBlinkPattern blink_score])
    else (s, ev)
  let artifact_score := m.compression_artifact_score.getD 0
  if artifact_score > th.artifact_threshold then
    ({ s with gan_face_swap := s.gan_face_swap + 10,
              unknown_manipulation := s.unknown_manipulation + 5 },
      ev ++ [.highCompressionArtifacts artifact_score])
  else (s, ev)

/-- `FakeTypeClassifier._analyze_multimodal`. -/
def analyzeMultimodalRules (th : ClassifierThresholds) (m : MultimodalInput)
    (acc : TypeScores × List ClassifierEvidence) :
    TypeScores × List ClassifierEvidence :=
  let (s, ev) := acc
  let lip_sync_score := m.lip_sync_score.getD 100
  let (s, ev) :=
    if lip_sync_score < th.lip_sync_audio_mismatch then
      ({ s with lip_sync := s.lip_sync + 35 },
        ev ++ [.poorLipAudioSync lip_sync_score])
    else (s, ev)
  let audio_spoof := m.audio_spoof_score.getD 0
  let (s, ev) :=
    if audio_spoof > 60 then
      ({ s with lip_sync := s.lip_sync + 20 },
        ev ++ [.audioSpoofingIndicators audio_spoof])
    else (s, ev)
  match m.lip_sync_features with
  | none => (s, ev)
  | some lf =>
      let correlation := lf.correlation.getD 1
      if correlation < 0.3 then
        ({ s with lip_sync := s.lip_sync + 25 },
          ev ++ [.lowAudioVisualCorrelation correlation])
      else (s, ev)

/-- `FakeTypeClassifier._analyze_timeline`. -/
def analyzeTimelineRules (st : TimelineStatsInput)
    (acc : TypeScores × List ClassifierEvidence) :
    TypeScores × List ClassifierEvidence :=
  let (s, ev) := acc
  let variance := st.temporal_variance.getD 0
  let (s, ev) :=
    if variance > 0.15 then
      ({ s with face_reenactment := s.face_reenactment + 15 },
        ev ++ [.highTemporalVariance variance])
    else (s, ev)
  let anomaly_rate := st.anomaly_ratio.getD 0
  let (s, ev) :=
    if anomaly_rate > 0.2 then
      ({ s with gan_face_swap := s.gan_face_swap + 10,
                face_reenactment := s.face_reenactment + 10 },
        ev ++ [.highAnomalyRate anomaly_rate])
    else (s, ev)
  let mean_prob := st.mean_fake_probability.getD 0
  if mean_prob > 0.8 then
    ({ s with gan_face_swap := s.gan_face_swap + 10 },
      ev ++ [.consistentlyHighFakeProb mean_prob])
  else (s, ev)

/-- The model rule opening `FakeTypeClassifier.classify`: REAL above 70%
adds 50 to the authentic bucket (with evidence); any non-REAL label only
records FAKE evidence. -/
def classifyModelStep (pred : ModelPrediction) :
    TypeScores × List ClassifierEvidence :=
  let s0 : TypeScores := ⟨0, 0, 0, 0, 0⟩
  if pred.prediction_label = "REAL" then
    if pred.confidence > 70 then
      ({ s0 with authentic := s0.authentic + 50 },
        [ClassifierEvidence.modelPredictsReal pred.confidence])
    else (s0, [])
  else (s0, [ClassifierEvidence.modelPredictsFake pred.confidence])

/-- The accumulation phase of `FakeTypeClassifier.classify`: the model
rule, then the optional forensics, multimodal and timeline rules. -/
def classifyAccum (th : ClassifierThresholds) (pred : ModelPrediction)
    (forensics : Option ForensicsInput) (multimodal : Option MultimodalInput)
    (timeline : Option TimelineStatsInput) :
    TypeScores × List ClassifierEvidence :=
  let acc := classifyModelStep pred
  let acc := match forensics with
    | none => acc
    | some m => analyzeForensicsRules th m acc
  let acc := match multimodal with
    | none => acc
    | some m => analyzeMultimodalRules th m acc
  match timeline with
  | none => acc
  | some st => analyzeTimelineRules st acc

/-- The accumulated scores of `classify`. -/
def classifyScores (th : ClassifierThresholds) (pred : ModelPrediction)
    (forensics : Option ForensicsInput) (multimodal : Option MultimodalInput)
    (timeline : Option TimelineStatsInput) : TypeScores :=
  (classifyAccum th pred forensics multimodal timeline).1

/-- `max(fake_types, key=fake_types.get)` over the four non-authentic
buckets in their dict insertion order (first bucket wins ties). -/
def argmaxFake (s : TypeScores) : FakeType :=
  if s.lip_sync ≤ s.gan_face_swap ∧ s.face_reenactment ≤ s.gan_face_swap ∧
      s.unknown_manipulation ≤ s.gan_face_swap then .gan_face_swap
  else if s.face_reenactment ≤ s.lip_sync ∧
      s.unknown_manipulation ≤ s.lip_sync then .lip_sync
  else if s.unknown_manipulation ≤ s.face_reenactment then .face_reenactment
  else .unknown_manipulation

/-- `FakeTypeClassifier._determine_primary_type`. -/
def determinePrimaryType (s : TypeScores) (pred : ModelPrediction) :
    FakeType × ℚ :=
  if pred.prediction_label = "REAL" ∧ pred.confidence > 70 ∧
      s.authentic > 40 then
    (.authentic, min 95 pred.confidence)
  else if s.gan_face_swap = 0 ∧ s.lip_sync = 0 ∧ s.face_reenactment = 0 ∧
      s.unknown_manipulation = 0 then
    (.unknown_manipulation, 40)
  else
    let max_type := argmaxFake s
    let max_score := s.get max_type
    let total_score := s.gan_face_swap + s.lip_sync + s.face_reenactment +
      s.unknown_manipulation
    let confidence :=
      if total_score > 0 then max_score / total_score * 100 else 40
    if max_score < 20 then (.unknown_manipulation, min 50 confidence)
    else (max_type, min 95 confidence)

/-- The literal base explanation of `_generate_explanation` (the appended
"Key indicators" evidence suffix is presentation-level formatting of the
`evidence` list, which the result carries separately). -/
def classifierExplanationFor : FakeType → String
  | .authentic =>
      "Analysis indicates this video is likely authentic. Face consistency, temporal stability, and audio-visual sync are within normal parameters."
  | .gan_face_swap =>
      "This video shows signs of GAN-based face swap manipulation. Indicators include inconsistent face features across frames, unnatural blink patterns, and potential compression artifacts around facial boundaries."
  | .lip_sync =>
      "This video appears to be a lip-sync manipulation (audio deepfake). The audio track shows signs of synthesis or modification, and the lip movements do not properly correlate with the audio."
  | .face_reenactment =>
      "This video shows signs of face reenactment manipulation. The facial expressions and movements appear to be transferred from another source, with temporal inconsistencies and unnatural expression transitions."
  | .unknown_manipulation =>
      "This video shows signs of manipulation, but the specific type could not be determined with high confidence. Further manual analysis is recommended."

/-- `FakeTypeResult` dataclass (`all_scores` kept as the raw score
structure). -/
structure FakeTypeResult where
  primary_type : FakeType
  confidence : ℚ
  all_scores : TypeScores
  evidence : List ClassifierEvidence
  explanation : String

/-- `FakeTypeClassifier.classify`. -/
def classify (th : ClassifierThresholds) (pred : ModelPrediction)
    (forensics : Option ForensicsInput) (multimodal : Option MultimodalInput)
    (timeline : Option TimelineStatsInput) : FakeTypeResult :=
  let acc := classifyAccum th pred forensics multimodal timeline
  let pc := determinePrimaryType acc.1 pred
  ⟨pc.1, pc.2, acc.1, acc.2, classifierExplanationFor pc.1⟩

/-! ## ThreatLevelScorer (`threat_level.py`) -/

/-- `ThreatLevel` enum. -/
inductive ThreatLevel where
  | safe
  | suspicious
  | high_risk
  | critical
  | unknown
deriving DecidableEq

/-- `LEVEL_DISPLAY`. -/
def levelDisplay : ThreatLevel → String
  | .safe => "Safe"
  | .suspicious => "Suspicious"
  | .high_risk => "High Risk"
  | .critical => "Critical"
  | .unknown => "Unknown"

/-- `COLOR_CODES`. -/
def colorCode : ThreatLevel → String
  | .safe => "#28a745"
  | .suspicious => "#ffc107"
  | .high_risk => "#fd7e14"
  | .critical => "#dc3545"
  | .unknown => "#6c757d"

/-- `DEFAULT_THRESHOLDS` shape: `safe_max`, `suspicious_max`,
`high_risk_max`. -/
structure ThreatThresholds where
  safe_max : ℚ
  suspicious_max : ℚ
  high_risk_max : ℚ

/-- The default threat thresholds (25 / 55 / 80). -/
def defaultThreatThresholds : ThreatThresholds := ⟨25, 55, 80⟩

/-- The component-weight dict shape (`DEFAULT_WEIGHTS` keys). -/
structure ThreatWeights where
  model_confidence : ℚ
  forensics_score : ℚ
  audio_score : ℚ
  temporal_score : ℚ
  fake_type_score : ℚ
deriving DecidableEq

/-- `DEFAULT_WEIGHTS`. -/
def defaultThreatWeights : ThreatWeights := ⟨0.35, 0.25, 0.15, 0.15, 0.10⟩

/-- The sum of the five component weights. -/
def sumWeights (w : ThreatWeights) : ℚ :=
  w.model_confidence + w.forensics_score + w.audio_score +
    w.temporal_score + w.fake_type_score

/-- A custom weight override, per key. -/
structure WeightsOverride where
  model_confidence : Option ℚ
  forensics_score : Option ℚ
  audio_score : Option ℚ
  temporal_score : Option ℚ
  fake_type_score : Option ℚ

/-- The default weights updated by a custom override,
`{**DEFAULT_WEIGHTS, **weights}`. -/
def updatedWeights (o : WeightsOverride) : ThreatWeights :=
  ⟨o.model_confidence.getD defaultThreatWeights.model_confidence,
   o.forensics_score.getD defaultThreatWeights.forensics_score,
   o.audio_score.getD defaultThreatWeights.audio_score,
   o.temporal_score.getD defaultThreatWeights.temporal_score,
   o.fake_type_score.getD defaultThreatWeights.fake_type_score⟩

/-- Weight handling of `ThreatLevelScorer.__init__`: defaults, optionally
updated by the custom dict and then renormalized by the total (the Python
division raises `ZeroDivisionError` when the updated weights sum to 0,
modelled as `Except.error`). -/
def initWeights (custom : Option WeightsOverride) :
    Except String ThreatWeights :=
  match custom with
  | none => .ok defaultThreatWeights
  | some o =>
      let u := updatedWeights o
      let total := sumWeights u
      if total = 0 then .error "ZeroDivisionError"
      else .ok ⟨u.model_confidence / total, u.forensics_score / total,
        u.audio_score / total, u.temporal_score / total,
        u.fake_type_score / total⟩

/-- The literal risk/mitigating factor strings of the component scorers,
modelled as tagged values (the `f"..."` number formatting is
presentation-level). -/
inductive ThreatFactor where
  | modelFakeHighConfidence (confidence : ℚ)
  | modelFakeModerateConfidence (confidence : ℚ)
  | modelRealHighConfidence (confidence : ℚ)
  | lowFaceConsistency (v : ℚ)
  | highFaceConsistency (v : ℚ)
  | abnormalBlinkPattern (v : ℚ)
  | lowTemporalStability (v : ℚ)
  | goodTemporalStability (v : ℚ)
  | highCompressionArtifacts (v : ℚ)
  | poorLipSync (v : ℚ)
  | goodLipSync (v : ℚ)
  | audioSpoofingDetected (v : ℚ)
  | highAverageFakeProbability (v : ℚ)
  | highTemporalAnomalyRate (v : ℚ)
  | highTemporalConsistency (v : ℚ)
  | classifiedAuthentic (confidence : ℚ)
  | classifiedAsFakeType (type : String) (confidence : ℚ)
  | undeterminedManipulationType
deriving DecidableEq

/-- `_score_model_prediction`:
`(score, risk factors, mitigating factors)`. -/
def scoreModelPrediction (pred : ModelPrediction) :
    ℚ × List ThreatFactor × List ThreatFactor :=
  if pred.prediction_label = "FAKE" then
    (pred.confidence,
      (if pred.confidence > 80 then
        [ThreatFactor.modelFakeHighConfidence pred.confidence]
      else if pred.confidence > 60 then
        [ThreatFactor.modelFakeModerateConfidence pred.confidence]
      else []),
      [])
  else if pred.prediction_label = "REAL" then
    (100 - pred.confidence, [],
      if pred.confidence > 80 then
        [ThreatFactor.modelRealHighConfidence pred.confidence]
      else [])
  else (50, [], [])

/-- `_score_forensics`: neutral 50 when the metrics are absent, else
`100 - overall_forensics_score` plus the per-component factor rules. -/
def scoreForensics (metrics : Option ForensicsInput) :
    ℚ × List ThreatFactor × List ThreatFactor :=
  match metrics with
  | none => (50, [], [])
  | some m =>
      let face_score := m.face_consistency_score.getD 50
      let blink_score := m.eye_blink_score.getD 50
      let stability_score := m.temporal_stability_score.getD 50
      let artifact_score := m.compression_artifact_score.getD 50
      let overall_forensics := m.overall_forensics_score.getD 50
      let threat_score := 100 - overall_forensics
      let risks :=
        (if face_score < 50 then [ThreatFactor.lowFaceConsistency face_score]
         else []) ++
        (if blink_score < 40 then [ThreatFactor.abnormalBlinkPattern blink_score]
         else []) ++
        (if stability_score < 50 then
          [ThreatFactor.lowTemporalStability stability_score] else []) ++
        (if artifact_score > 60 then
          [ThreatFactor.highCompressionArtifacts artifact_score] else [])
      let mitigations :=
        (if face_score < 50 then []
         else if face_score > 80 then
          [ThreatFactor.highFaceConsistency face_score] else []) ++
        (if stability_score < 50 then []
         else if stability_score > 80 then
          [ThreatFactor.goodTemporalStability stability_score] else [])
      (threat_score, risks, mitigations)

/-- `_score_multimodal`: neutral 50 when absent, else
`100 - combined_score` plus the lip-sync/audio-spoof factor rules. -/
def scoreMultimodal (metrics : Option MultimodalInput) :
    ℚ × List ThreatFactor × List ThreatFactor :=
  match metrics with
  | none => (50, [], [])
  | some m =>
      let audio_spoof := m.audio_spoof_score.getD 50
      let lip_sync := m.lip_sync_score.getD 50
      let combined := m.combined_score.getD 50
      let threat_score := 100 - combined
      let risks :=
        (if lip_sync < 40 then [ThreatFactor.poorLipSync lip_sync] else []) ++
        (if audio_spoof > 60 then
          [ThreatFactor.audioSpoofingDetected audio_spoof] else [])
      let mitigations :=
        if lip_sync < 40 then []
        else if lip_sync > 70 then [ThreatFactor.goodLipSync lip_sync]
        else []
      (threat_score, risks, mitigations)

/-- `_score_temporal`: neutral 50 when the timeline statistics are absent,
else `mean_fake_probability * 100 * 0.6 + (100 - consistency) * 0.4` plus
the factor rules. -/
def scoreTemporal (stats : Option TimelineStatsInput) :
    ℚ × List ThreatFactor × List ThreatFactor :=
  match stats with
  | none => (50, [], [])
  | some st =>
      let mean_fake_prob := st.mean_fake_probability.getD 0.5
      let anomaly_rate := st.anomaly_ratio.getD 0
      let consistency := st.temporal_consistency_score.getD 50
      let threat_score := mean_fake_prob * 100 * 0.6 + (100 - consistency) * 0.4
      let risks :=
        (if mean_fake_prob > 0.7 then
          [ThreatFactor.highAverageFakeProbability mean_fake_prob] else []) ++
        (if anomaly_rate > 0.2 then
          [ThreatFactor.highTemporalAnomalyRate anomaly_rate] else [])
      let mitigations :=
        if consistency > 80 then
          [ThreatFactor.highTemporalConsistency consistency]
        else []
      (threat_score, risks, mitigations)

/-- `_score_fake_type`: neutral 50 when absent; authentic inverts the
confidence (floored at 0); the three known manipulation types score their
confidence; anything else is 50 with an "undetermined" risk note. -/
def scoreFakeType (result : Option FakeTypeInput) :
    ℚ × List ThreatFactor × List ThreatFactor :=
  match result with
  | none => (50, [], [])
  | some r =>
      if r.type = "authentic" then
        (max 0 (100 - r.confidence), [],
          if r.confidence > 70 then
            [ThreatFactor.classifiedAuthentic r.confidence]
          else [])
      else if r.type = "gan_face_swap" ∨ r.type = "lip_sync_manipulation" ∨
          r.type = "face_reenactment" then
        (r.confidence,
          (if r.confidence > 60 then
            [ThreatFactor.classifiedAsFakeType r.type r.confidence]
          else []),
          [])
      else (50, [ThreatFactor.undeterminedManipulationType], [])

/-- The `component_scores` dict (its five keys, in insertion order). -/
structure ComponentScores where
  model_confidence : ℚ
  forensics_score : ℚ
  audio_score : ℚ
  temporal_score : ℚ
  fake_type_score : ℚ
deriving DecidableEq

/-- `_determine_level`. -/
def determineLevel (th : ThreatThresholds) (score : ℚ) : ThreatLevel :=
  if score ≤ th.safe_max then .safe
  else if score ≤ th.suspicious_max then .suspicious
  else if score ≤ th.high_risk_max then .high_risk
  else .critical

/-- `_calculate_confidence`: base 60; +15 for forensics present (+5 more
when strictly more than 50 frames were analyzed); +10 for multimodal
present (+5 when the audio features are valid); +5 for timeline present;
capped at 95. -/
def calculateConfidence (forensics : Option ForensicsInput)
    (multimodal : Option MultimodalInput)
    (timeline : Option TimelineStatsInput) : ℚ :=
  let confidence : ℚ := 60
  let confidence := match forensics with
    | none => confidence
    | some f =>
        let c := confidence + 15
        if f.frame_count.getD 0 > 50 then c + 5 else c
  let confidence := match multimodal with
    | none => confidence
    | some m =>
        let c := confidence + 10
        if (m.audio_features.map (·.is_valid)).getD false then c + 5 else c
  let confidence := match timeline with
    | none => confidence
    | some _ => confidence + 5
  min 95 confidence

/-- Modelled from the spec: "Assessment confidence ... starts at 60, +15
for forensics present (+5 more if ≥50 frames analyzed), +10 for multimodal
present (+5 if audio valid), +5 for timeline present; capped at 95" — the
claim's reading, with the frame bonus at *at least* 50 frames. -/
def calculateConfidenceSpec (forensics : Option ForensicsInput)
    (multimodal : Option MultimodalInput)
    (timeline : Option TimelineStatsInput) : ℚ :=
  min 95 (60 +
    (match forensics with
      | none => 0
      | some f => 15 + (if f.frame_count.getD 0 ≥ 50 then 5 else 0)) +
    (match multimodal with
      | none => 0
      | some m =>
          10 + (if (m.audio_features.map (·.is_valid)).getD false then 5
            else 0)) +
    (match timeline with | none => 0 | some _ => 5))

/-- The literal level descriptions of `_generate_explanation`. -/
def levelDescription : ThreatLevel → String
  | .safe =>
      "Analysis indicates this content is likely authentic. Multiple verification methods show consistent results within expected parameters for genuine content."
  | .suspicious =>
      "Analysis shows some indicators that warrant further investigation. While not definitively manipulated, certain signals deviate from expected patterns for authentic content."
  | .high_risk =>
      "Strong indicators of potential manipulation detected. Multiple analysis methods have identified concerning patterns consistent with known deepfake techniques."
  | .critical =>
      "CRITICAL: Very strong evidence of manipulation detected. Analysis shows clear signs of synthetic or manipulated content. This content should be treated as potentially dangerous."
  | .unknown =>
      "Unable to determine authenticity with sufficient confidence. Additional analysis or manual review is recommended."

/-- `max(components, key=components.get)`: the first component key (in
dict insertion order) holding the maximum score, with its value. -/
def topComponent (c : ComponentScores) : String × ℚ :=
  if c.forensics_score ≤ c.model_confidence ∧
      c.audio_score ≤ c.model_confidence ∧
      c.temporal_score ≤ c.model_confidence ∧
      c.fake_type_score ≤ c.model_confidence then
    ("model_confidence", c.model_confidence)
  else if c.audio_score ≤ c.forensics_score ∧
      c.temporal_score ≤ c.forensics_score ∧
      c.fake_type_score ≤ c.forensics_score then
    ("forensics_score", c.forensics_score)
  else if c.temporal_score ≤ c.audio_score ∧
      c.fake_type_score ≤ c.audio_score then
    ("audio_score", c.audio_score)
  else if c.fake_type_score ≤ c.temporal_score then
    ("temporal_score", c.temporal_score)
  else ("fake_type_score", c.fake_type_score)

/-- The data assembled by `_generate_explanation` (base level text, the
overall score, the top contributing component, the first three risk
factors); the string concatenation and number formatting are
presentation-level. -/
structure ExplanationData where
  base : String
  score : ℚ
  top_component : String
  top_component_score : ℚ
  key_risk_factors : List ThreatFactor
deriving DecidableEq

/-- `_generate_explanation` (as its underlying data). -/
def generateExplanation (level : ThreatLevel) (score : ℚ)
    (components : ComponentScores) (risks : List ThreatFactor) :
    ExplanationData :=
  let top := topComponent components
  ⟨levelDescription level, score, top.1, top.2, risks.take 3⟩

/-- `_generate_recommendations`: the literal per-level recommendation
lists (the `risks` argument is unused by the source body). -/
def generateRecommendations (level : ThreatLevel)
    (_risks : List ThreatFactor) : List String :=
  match level with
  | .safe =>
      ["Content appears authentic, but verify source if high-stakes",
       "Check metadata and chain of custody for additional assurance",
       "Consider context and source credibility"]
  | .suspicious =>
      ["Recommend manual review by trained analyst",
       "Cross-reference with known authentic content from the same source",
       "Check for additional corroborating evidence",
       "Consider running additional verification tools"]
  | .high_risk =>
      ["Do NOT use this content without thorough verification",
       "Escalate to security team for professional analysis",
       "Attempt to locate original source content",
       "Document chain of custody for the content",
       "Consider potential impact if content is used"]
  | .critical =>
      ["BLOCK: Do not publish or distribute this content",
       "Immediately escalate to security/legal team",
       "Preserve all metadata and source information",
       "Document detection for potential legal purposes",
       "Investigate the source and distribution chain"]
  | .unknown =>
      ["Seek additional analysis from specialized tools",
       "Request manual expert review",
       "Do not use content until verified",
       "Collect additional context about content origin"]

/-- `ThreatAssessment` dataclass. -/
structure ThreatAssessment where
  level : ThreatLevel
  level_display : String
  overall_score : ℚ
  confidence : ℚ
  component_scores : ComponentScores
  risk_factors : List ThreatFactor
  mitigating_factors : List ThreatFactor
  explanation : ExplanationData
  recommendations : List String
  color_code : String

/-- `ThreatLevelScorer.assess`: the five component scores, the weighted
overall score (summed over the weight keys in insertion order), the level,
the availability-based confidence, explanation data and recommendations. -/
def assess (w : ThreatWeights) (th : ThreatThresholds)
    (model_prediction : ModelPrediction)
    (forensics_metrics : Option ForensicsInput)
    (multimodal_metrics : Option MultimodalInput)
    (timeline_stats : Option TimelineStatsInput)
    (fake_type_result : Option FakeTypeInput) : ThreatAssessment :=
  let ms := scoreModelPrediction model_prediction
  let fs := scoreForensics forensics_metrics
  let as_ := scoreMultimodal multimodal_metrics
  let ts := scoreTemporal timeline_stats
  let fts := scoreFakeType fake_type_result
  let component_scores : ComponentScores :=
    ⟨ms.1, fs.1, as_.1, ts.1, fts.1⟩
  let risk_factors := ms.2.1 ++ fs.2.1 ++ as_.2.1 ++ ts.2.1 ++ fts.2.1
  let mitigating_factors := ms.2.2 ++ fs.2.2 ++ as_.2.2 ++ ts.2.2 ++ fts.2.2
  let overall_score :=
    component_scores.model_confidence * w.model_confidence +
    component_scores.forensics_score * w.forensics_score +
    component_scores.audio_score * w.audio_score +
    component_scores.temporal_score * w.temporal_score +
    component_scores.fake_type_score * w.fake_type_score
  let level := determineLevel th overall_score
  let confidence :=
    calculateConfidence forensics_metrics multimodal_metrics timeline_stats
  { level := level
    level_display := levelDisplay level
    overall_score := overall_score
    confidence := confidence
    component_scores := component_scores
    risk_factors := risk_factors
    mitigating_factors := mitigating_factors
    explanation :=
      generateExplanation level overall_score component_scores risk_factors
    recommendations := generateRecommendations level risk_factors
    color_code := colorCode level }

/-! ## Concrete fixtures used by witnesses and counterexamples -/

/-- Scenario E model prediction: FAKE at 95% confidence. -/
def scenarioEPrediction : ModelPrediction := ⟨"FAKE", 95⟩

/-- Scenario E forensics metrics: `overall_forensics_score = 20`. -/
def scenarioEForensics : ForensicsInput := ⟨none, none, none, none, some 20, none⟩

/-- Scenario E multimodal metrics: `combined_score = 25`. -/
def scenarioEMultimodal : MultimodalInput := ⟨none, none, some 25, none, none⟩

/-- The Scenario E assessment with default weights and thresholds: model
FAKE@95, forensics overall 20, multimodal combined 25, no timeline, no
fake-type result. -/
def scenarioEAssessment : ThreatAssessment :=
  assess defaultThreatWeights defaultThreatThresholds scenarioEPrediction
    (some scenarioEForensics) (some scenarioEMultimodal) none none

/-- Timeline statistics with mean fake probability 1 and temporal
consistency 100 (used against claim C2). -/
def c2Stats : TimelineStatsInput := ⟨some 1, none, none, some 100⟩

/-- Forensics metrics with exactly 50 analyzed frames (used against claim
C5's "at least 50 frames" reading). -/
def c5Forensics : ForensicsInput := ⟨none, none, none, none, none, some 50⟩

/-- A custom weight override setting only `model_confidence` to 0.7. -/
def c6Override : WeightsOverride := ⟨some 0.7, none, none, none, none⟩

/-- The renormalized weights produced by `c6Override`
(total 1.35 = 27/20). -/
def c6Weights : ThreatWeights := ⟨14/27, 5/27, 1/9, 1/9, 2/27⟩

/-- A perfectly periodic square wave: 8 blocks of 17 samples alternating
between +1 and −1.  Its sign changes at indices 16, 33, …, 118 (7 zero
crossings), yielding the pitch periods [34, 34, 34] and jitter 0. -/
def sqWave : List ℚ :=
  (List.range 136).map (fun i => if (i / 17) % 2 = 0 then (1 : ℚ) else -1)

/-- Model prediction FAKE@95 for the classifier witness. -/
def c3Prediction : ModelPrediction := ⟨"FAKE", 95⟩

/-- Forensics metrics with face consistency 50 for the classifier
witness (adds +25 to the face-swap bucket). -/
def c3Forensics : ForensicsInput := ⟨some 50, none, none, none, none, none⟩

/-- One concrete `add_frame` call with logits (0, 0) and timestamp 0. -/
def c4Call : AddFrameCall := ⟨0, 0, 0, some 0⟩

/-- The timeline built from the single call `c4Call`. -/
noncomputable def c4Timeline : FrameProbabilityTimeline :=
  buildTimeline 30 (3/10) 5 [c4Call]

/-- The single entry of `c4Timeline`. -/
noncomputable def c4Entry : FrameProbability := c4Timeline.frame_data.headI

/-- A two-entry timeline (shorter than the default smoothing window 5)
whose fake probabilities are 0 and 1. -/
noncomputable def c9ShortTimeline : FrameProbabilityTimeline :=
  ⟨30, 3/10, 5,
    [⟨0, 0, 1, 0, false, 0⟩, ⟨1, 1, 0, 100/3, false, 0⟩]⟩

/-- A five-entry timeline (as long as the default smoothing window 5). -/
noncomputable def c9FiveTimeline : FrameProbabilityTimeline :=
  ⟨30, 3/10, 5,
    [⟨0, 0, 1, 0, false, 0⟩, ⟨1, 1, 0, 100/3, false, 0⟩,
     ⟨2, 1/2, 1/2, 200/3, false, 0⟩, ⟨3, 1, 0, 100, false, 0⟩,
     ⟨4, 0, 1, 400/3, false, 0⟩]⟩

/-! ## Theorems -/

/-- Claim C10: for every combination of weights, thresholds and inputs,
`ThreatLevelScorer.assess` returns a level among safe, suspicious,
high_risk and critical; the `unknown` member of the `ThreatLevel`
enumeration is never produced. -/
theorem c10_level_total (w : ThreatWeights) (th : ThreatThresholds)
    (pred : ModelPrediction) (f : Option ForensicsInput)
    (mm : Option MultimodalInput) (tl : Option TimelineStatsInput)
    (ft : Option FakeTypeInput) :
    ((assess w th pred f mm tl ft).level = ThreatLevel.safe ∨
     (assess w th pred f mm tl ft).level = ThreatLevel.suspicious ∨
     (assess w th pred f mm tl ft).level = ThreatLevel.high_risk ∨
     (assess w th pred f mm tl ft).level = ThreatLevel.critical) ∧
    (assess w th pred f mm tl ft).level ≠ ThreatLevel.unknown := by
  have h : (assess w th pred f mm tl ft).level =
      determineLevel th ((assess w th pred f mm tl ft).overall_score) := rfl
  rw [h]
  unfold determineLevel
  split_ifs <;> simp

/-- Claim C2, counterexample: on timeline statistics with mean fake
probability 1 and temporal consistency score 100, the temporal component
score is 60, not `100 − temporal_consistency_score = 0` as the claim
states. -/
theorem c2_temporal_counterexample :
    (scoreTemporal (some c2Stats)).1 = 60 ∧
    (scoreTemporal (some c2Stats)).1 ≠
      100 - (c2Stats.temporal_consistency_score.getD 50) := by
  constructor <;> norm_num [scoreTemporal, c2Stats]

/-- Claim C2, amended: for every non-missing timeline statistics input the
temporal component score equals
`mean_fake_probability·100·0.6 + (100 − temporal_consistency_score)·0.4`
(fields defaulting to 0.5 and 50); when the statistics are absent the
component defaults to the neutral 50. -/
theorem c2_temporal_amended (st : TimelineStatsInput) :
    (scoreTemporal (some st)).1 =
      st.mean_fake_probability.getD 0.5 * 100 * 0.6 +
        (100 - st.temporal_consistency_score.getD 50) * 0.4 ∧
    (scoreTemporal none).1 = 50 :=
  ⟨rfl, rfl⟩

/-- Claim C5, counterexample: with forensics metrics present reporting
exactly 50 analyzed frames (and nothing else), the code's assessment
confidence is 75 (the `> 50` test fails), while the claim's "at least 50
frames" reading yields 80. -/
theorem c5_confidence_counterexample :
    calculateConfidence (some c5Forensics) none none = 75 ∧
    calculateConfidenceSpec (some c5Forensics) none none = 80 ∧
    calculateConfidence (some c5Forensics) none none ≠
      calculateConfidenceSpec (some c5Forensics) none none := by
  refine ⟨?_, ?_, ?_⟩ <;>
    norm_num [calculateConfidence, calculateConfidenceSpec, c5Forensics]

/-- Claim C5, amended: the assessment confidence equals 60, plus 15 when
forensics metrics are present (plus 5 more when *strictly more than* 50
frames were analyzed), plus 10 when multimodal metrics are present (plus 5
when the audio is valid), plus 5 when timeline statistics are present,
capped at 95. -/
theorem c5_confidence_amended (f : Option ForensicsInput)
    (mm : Option MultimodalInput) (tl : Option TimelineStatsInput) :
    calculateConfidence f mm tl =
      min 95 ((60 : ℚ) +
        (match f with
          | none => 0
          | some f' => 15 + (if f'.frame_count.getD 0 > 50 then 5 else 0)) +
        (match mm with
          | none => 0
          | some m =>
              10 + (if (m.audio_features.map (·.is_valid)).getD false then 5
                else 0)) +
        (match tl with | none => 0 | some _ => 5)) := by
  cases f <;> cases mm <;> cases tl <;>
    simp only [calculateConfidence] <;>
    first
      | (split_ifs <;> norm_num)
      | norm_num

/-- Claim C1, counterexample: on Scenario E (model FAKE@95, forensics
overall 20, multimodal combined 25, no timeline or fake-type input, default
weights and thresholds) the weighted overall score is exactly
`0.35·95 + 0.25·80 + 0.15·75 + 0.15·50 + 0.10·50 = 77`, which is ≤ 80, so
the level is `high_risk` — not `critical` with score above 80 as claimed. -/
theorem c1_scenarioE_counterexample :
    scenarioEAssessment.overall_score = 77 ∧
    scenarioEAssessment.level = ThreatLevel.high_risk ∧
    ¬(scenarioEAssessment.level = ThreatLevel.critical ∧
      scenarioEAssessment.overall_score > 80) := by
  have hscore : scenarioEAssessment.overall_score = 77 := by
    norm_num [scenarioEAssessment, assess, scenarioEPrediction,
      scenarioEForensics, scenarioEMultimodal, scoreModelPrediction,
      scoreForensics, scoreMultimodal, scoreTemporal, scoreFakeType,
      defaultThreatWeights]
  have hlevel : scenarioEAssessment.level = ThreatLevel.high_risk := by
    have h : scenarioEAssessment.level =
        determineLevel defaultThreatThresholds
          scenarioEAssessment.overall_score := rfl
    rw [h, hscore]
    norm_num [determineLevel, defaultThreatThresholds]
  exact ⟨hscore, hlevel, fun hc => by rw [hlevel] at hc; exact absurd hc.1 (by simp)⟩

/-- Claim C1, amended: on Scenario E the assessment has level `high_risk`
with overall score exactly 77 (not above 80), and its recommendations
include escalate language ("Escalate to security team for professional
analysis") though not the critical-level BLOCK directive. -/
theorem c1_scenarioE_amended :
    scenarioEAssessment.level = ThreatLevel.high_risk ∧
    scenarioEAssessment.overall_score = 77 ∧
    scenarioEAssessment.overall_score ≤ 80 ∧
    "Escalate to security team for professional analysis" ∈
      scenarioEAssessment.recommendations := by
  have hscore : scenarioEAssessment.overall_score = 77 := by
    norm_num [scenarioEAssessment, assess, scenarioEPrediction,
      scenarioEForensics, scenarioEMultimodal, scoreModelPrediction,
      scoreForensics, scoreMultimodal, scoreTemporal, scoreFakeType,
      defaultThreatWeights]
  have hlevel : scenarioEAssessment.level = ThreatLevel.high_risk := by
    have h : scenarioEAssessment.level =
        determineLevel defaultThreatThresholds
          scenarioEAssessment.overall_score := rfl
    rw [h, hscore]
    norm_num [determineLevel, defaultThreatThresholds]
  have hrec : scenarioEAssessment.recommendations =
      generateRecommendations scenarioEAssessment.level
        scenarioEAssessment.risk_factors := rfl
  refine ⟨hlevel, hscore, by rw [hscore]; norm_num, ?_⟩
  rw [hrec, hlevel]
  simp [generateRecommendations]

/-- Claim C6: whenever `ThreatLevelScorer.__init__` succeeds — with the
default weights or with any custom override whose updated weights do not
sum to zero — the effective component weights sum to exactly 1. -/
theorem c6_weights_normalized (custom : Option WeightsOverride)
    (w : ThreatWeights) (h : initWeights custom = Except.ok w) :
    sumWeights w = 1 := by
  cases custom with
  | none =>
      simp only [initWeights, Except.ok.injEq] at h
      rw [← h]
      norm_num [sumWeights, defaultThreatWeights]
  | some o =>
      simp only [initWeights] at h
      by_cases h0 : sumWeights (updatedWeights o) = 0
      · rw [if_pos h0] at h
        exact Except.noConfusion h
      · rw [if_neg h0] at h
        injection h with hw
        subst hw
        rw [sumWeights]
        rw [div_add_div_same, div_add_div_same, div_add_div_same,
          div_add_div_same]
        exact div_self h0

/-- Claim C6, witness: overriding only `model_confidence` to 0.7 makes the
construction succeed with the renormalized weights
(14/27, 5/27, 1/9, 1/9, 2/27), which sum to 1. -/
theorem c6_weights_normalized_witness :
    initWeights (some c6Override) = Except.ok c6Weights ∧
    sumWeights c6Weights = 1 := by
  have h : initWeights (some c6Override) = Except.ok c6Weights := by
    norm_num [initWeights, updatedWeights, sumWeights, c6Override, c6Weights,
      defaultThreatWeights]
  exact ⟨h, c6_weights_normalized (some c6Override) c6Weights h⟩

/-- Claim C9, counterexample: on a two-entry timeline with fake
probabilities 0 and 1 (shorter than the default smoothing window 5),
`get_smoothed_probabilities` returns the raw probabilities `[0, 1]`, not
the truncated centered moving average `[1/2, 1/2]`. -/
theorem c9_smoothing_counterexample :
    get_smoothed_probabilities c9ShortTimeline = [0, 1] ∧
    centeredMovingAverageSpec c9ShortTimeline.smoothing_window
      (c9ShortTimeline.frame_data.map (·.fake_probability)) =
      [1/2, 1/2] ∧
    get_smoothed_probabilities c9ShortTimeline ≠
      centeredMovingAverageSpec c9ShortTimeline.smoothing_window
        (c9ShortTimeline.frame_data.map (·.fake_probability)) := by
  have h1 : get_smoothed_probabilities c9ShortTimeline = [0, 1] := by
    norm_num [get_smoothed_probabilities, c9ShortTimeline, smoothedList]
  have h2 : centeredMovingAverageSpec c9ShortTimeline.smoothing_window
      (c9ShortTimeline.frame_data.map (·.fake_probability)) =
      [1/2, 1/2] := by
    norm_num [centeredMovingAverageSpec, c9ShortTimeline,
      centeredWindowMean, listMean, listSlice, List.range_succ]
  refine ⟨h1, h2, ?_⟩
  rw [h1, h2]
  intro h
  have := List.head_eq_of_cons_eq h
  norm_num at this

/-- Claim C9, amended: whenever the timeline holds at least
`smoothing_window` frames, `get_smoothed_probabilities` equals the
centered moving average of the per-frame fake probabilities with the
window truncated at the ends; shorter timelines are returned unsmoothed. -/
theorem c9_smoothing_amended (tl : FrameProbabilityTimeline)
    (h : tl.smoothing_window ≤ tl.frame_data.length) :
    get_smoothed_probabilities tl =
      centeredMovingAverageSpec tl.smoothing_window
        (tl.frame_data.map (·.fake_probability)) := by
  unfold get_smoothed_probabilities smoothedList centeredMovingAverageSpec
  have hlen : (tl.frame_data.map (·.fake_probability)).length =
      tl.frame_data.length := List.length_map _ _
  by_cases he : tl.frame_data.map (·.fake_probability) = []
  · rw [if_pos he, he]
    simp
  · rw [if_neg he, if_neg (by rw [hlen]; omega)]

/-- Claim C9, amended, witness: on a concrete five-entry timeline with the
default window 5, the smoothed output is the truncated centered moving
average. -/
theorem c9_smoothing_amended_witness :
    get_smoothed_probabilities c9FiveTimeline =
      centeredMovingAverageSpec c9FiveTimeline.smoothing_window
        (c9FiveTimeline.frame_data.map (·.fake_probability)) :=
  c9_smoothing_amended c9FiveTimeline (by decide)

/-- The two softmax components sum to exactly 1. -/
theorem softmax2_sum (l0 l1 : ℝ) :
    softmax2_fake l0 l1 + softmax2_real l0 l1 = 1 := by
  unfold softmax2_fake softmax2_real
  rw [div_add_div_same]
  exact div_self (by positivity)

/-- `add_frame` preserves the probability-sum invariant: the new entry's
probabilities come from one softmax and older entries are untouched. -/
theorem addFrame_sum_inv (tl : FrameProbabilityTimeline) (i : ℕ)
    (l0 l1 : ℝ) (ts : Option ℝ)
    (h : ∀ e ∈ tl.frame_data,
      e.fake_probability + e.real_probability = 1) :
    ∀ e ∈ (addFrame tl i l0 l1 ts).frame_data,
      e.fake_probability + e.real_probability = 1 := by
  intro e he
  simp only [addFrame, List.mem_append, List.mem_singleton] at he
  rcases he with he | rfl
  · exact h e he
  · rcases tl.frame_data.getLast? with _ | prev <;> simp <;>
      first
        | (split_ifs <;> simp [softmax2_sum])
        | simp [softmax2_sum]

/-- Folding any invariant-preserving step preserves the probability-sum
invariant. -/
theorem foldl_sum_inv {α : Type}
    (g : FrameProbabilityTimeline → α → FrameProbabilityTimeline)
    (hg : ∀ t a, (∀ e ∈ t.frame_data,
        e.fake_probability + e.real_probability = 1) →
      ∀ e ∈ (g t a).frame_data,
        e.fake_probability + e.real_probability = 1)
    (l : List α) :
    ∀ t : FrameProbabilityTimeline,
      (∀ e ∈ t.frame_data, e.fake_probability + e.real_probability = 1) →
      ∀ e ∈ (l.foldl g t).frame_data,
        e.fake_probability + e.real_probability = 1 := by
  induction l with
  | nil => exact fun t h => h
  | cons c cs ih => exact fun t h => ih (g t c) (hg t c h)

/-- Every entry of a timeline built by `add_frame` calls satisfies the
exact invariant. -/
theorem buildTimeline_sum_inv (fps thr : ℝ) (w : ℕ)
    (calls : List AddFrameCall) :
    ∀ e ∈ (buildTimeline fps thr w calls).frame_data,
      e.fake_probability + e.real_probability = 1 := by
  unfold buildTimeline
  refine foldl_sum_inv _ ?_ calls (FrameProbabilityTimeline.mk0 fps thr w)
    (by simp [FrameProbabilityTimeline.mk0])
  exact fun t c h => addFrame_sum_inv t c.frame_index c.l0 c.l1
    c.timestamp_ms h

/-- Claim C4: for every sequence of `add_frame` calls with two-element
logits (index 0 = FAKE, index 1 = REAL) on a fresh timeline, every
resulting entry satisfies `fake_probability + real_probability = 1` within
tolerance 1e-6, and the invariant is preserved by every subsequent
`add_frame` and `add_batch` call. -/
theorem c4_timeline_prob_sum (fps thr : ℝ) (w : ℕ)
    (calls : List AddFrameCall) :
    (∀ e ∈ (buildTimeline fps thr w calls).frame_data,
      |e.fake_probability + e.real_probability - 1| ≤ 1 / 1000000) ∧
    (∀ (i : ℕ) (l0 l1 : ℝ) (ts : Option ℝ),
      ∀ e ∈ (addFrame (buildTimeline fps thr w calls)
          i l0 l1 ts).frame_data,
        |e.fake_probability + e.real_probability - 1| ≤ 1 / 1000000) ∧
    (∀ (start : ℕ) (logits : List (ℝ × ℝ)) (fpsOverride : Option ℝ),
      ∀ e ∈ (addBatch (buildTimeline fps thr w calls)
          start logits fpsOverride).frame_data,
        |e.fake_probability + e.real_probability - 1| ≤ 1 / 1000000) := by
  have base := buildTimeline_sum_inv fps thr w calls
  have tol : ∀ (e : FrameProbability),
      e.fake_probability + e.real_probability = 1 →
      |e.fake_probability + e.real_probability - 1| ≤ 1 / 1000000 := by
    intro e he
    rw [he]
    norm_num
  refine ⟨fun e he => tol e (base e he), ?_, ?_⟩
  · intro i l0 l1 ts e he
    exact tol e (addFrame_sum_inv _ i l0 l1 ts base e he)
  · intro start logits fpsOverride e he
    refine tol e ?_
    unfold addBatch at he
    refine foldl_sum_inv _ ?_ logits.enum _ ?_ e he
    · exact fun t a h => addFrame_sum_inv t (start + a.1) a.2.1 a.2.2 none h
    · exact base

/-- Claim C4, witness: the single entry produced by one `add_frame` call
with logits (0, 0) on a fresh timeline satisfies the invariant. -/
theorem c4_timeline_prob_sum_witness :
    |c4Entry.fake_probability + c4Entry.real_probability - 1| ≤
      1 / 1000000 :=
  (c4_timeline_prob_sum 30 (3/10) 5 [c4Call]).1 c4Entry
    (by simp [c4Entry, c4Timeline, buildTimeline, addFrame,
      FrameProbabilityTimeline.mk0, c4Call, List.headI])

/-- Claim C7: for every audio signal yielding at least 3 valid
zero-crossing-derived pitch periods and jitter below 0.001 (the
"too-perfect" branch), `compute_jitter` returns jitter score exactly 80
(in particular at least 75, not a moderate linear score). -/
theorem c7_jitter_too_perfect (samples : List ℚ) (r fs : ℕ)
    (h3 : 3 ≤ (pitchPeriods samples).length)
    (hj : jitterOf samples < 1 / 1000) :
    (compute_jitter samples r fs).2 = 80 ∧
    75 ≤ (compute_jitter samples r fs).2 := by
  have hle : (pitchPeriods samples).length ≤
      ((zeroCrossings samples).length - 1) / 2 := by
    unfold pitchPeriods periodsFrom
    calc (List.filterMap _ (List.range
            (((zeroCrossings samples).length - 1) / 2))).length
        ≤ (List.range (((zeroCrossings samples).length - 1) / 2)).length :=
          List.length_filterMap_le _ _
      _ = ((zeroCrossings samples).length - 1) / 2 := List.length_range _
  have hzc : ¬((zeroCrossings samples).length < 4) := by omega
  have hp3 : ¬((pitchPeriods samples).length < 3) := by omega
  simp only [compute_jitter]
  rw [if_neg hzc, if_neg hp3, if_pos hj]
  constructor <;> norm_num [npClip]

set_option maxRecDepth 4000 in
/-- Claim C7, witness: the perfectly periodic square wave `sqWave` yields
the three valid periods [34, 34, 34] and jitter 0 < 0.001, so its jitter
score is the "too-perfect" 80. -/
theorem c7_jitter_too_perfect_witness :
    (compute_jitter sqWave 16000 1024).2 = 80 ∧
    75 ≤ (compute_jitter sqWave 16000 1024).2 := by
  have hp : pitchPeriods sqWave = [34, 34, 34] := by decide
  have h3 : 3 ≤ (pitchPeriods sqWave).length := by rw [hp]; decide
  have hj : jitterOf sqWave < 1 / 1000 := by
    simp only [jitterOf, hp]
    norm_num [listMean]
  exact c7_jitter_too_perfect sqWave 16000 1024 h3 hj

/-- Claim C8: on every failing extraction/decoding outcome — no audio
track or decoder failure (`none`), unreadable WAV data (`some none`), or
empty decoded samples — `analyze_audio` returns `AudioFeatures` with
`is_valid = false` and a non-empty error message.  The model is a total
function: none of these paths raises. -/
theorem c8_audio_failure_graceful (outcome : ExtractOutcome)
    (h : outcome = none ∨ outcome = some none ∨
      ∃ r : ℕ, outcome = some (some ([], r))) :
    (analyze_audio_features outcome).is_valid = false ∧
    ∃ msg : String,
      (analyze_audio_features outcome).error_message = some msg ∧
      msg ≠ "" := by
  rcases h with rfl | rfl | ⟨r, rfl⟩
  · exact ⟨rfl, "Failed to extract audio", rfl, by decide⟩
  · exact ⟨rfl, "Failed to load audio data", rfl, by decide⟩
  · refine ⟨?_, "Failed to load audio data", ?_, by decide⟩ <;>
      simp [analyze_audio_features]

/-- Claim C8, witness: a failed audio extraction yields an invalid result
with the literal message "Failed to extract audio". -/
theorem c8_audio_failure_graceful_witness :
    (analyze_audio_features none).is_valid = false ∧
    ∃ msg : String,
      (analyze_audio_features none).error_message = some msg ∧
      msg ≠ "" :=
  c8_audio_failure_graceful none (Or.inl rfl)

/-- The argmax over the non-authentic buckets never returns
`authentic`. -/
theorem argmaxFake_ne_authentic (s : TypeScores) :
    argmaxFake s ≠ FakeType.authentic := by
  unfold argmaxFake
  split_ifs <;> simp

/-- The argmax over the non-authentic buckets dominates every
non-authentic bucket (ties resolved in dict order, as `max` does). -/
theorem argmaxFake_ge (s : TypeScores) :
    ∀ t : FakeType, t ≠ FakeType.authentic →
      s.get t ≤ s.get (argmaxFake s) := by
  intro t ht
  unfold argmaxFake
  split_ifs with h1 h2 h3
  · obtain ⟨hl, hr, hu⟩ := h1
    cases t with
    | authentic => exact absurd rfl ht
    | gan_face_swap => exact le_refl _
    | lip_sync => exact hl
    | face_reenactment => exact hr
    | unknown_manipulation => exact hu
  · obtain ⟨hr, hu⟩ := h2
    have hswap : s.gan_face_swap ≤ s.lip_sync := by
      by_contra hc
      push_neg at hc
      exact h1 ⟨le_of_lt hc, le_trans hr (le_of_lt hc),
        le_trans hu (le_of_lt hc)⟩
    cases t with
    | authentic => exact absurd rfl ht
    | gan_face_swap => exact hswap
    | lip_sync => exact le_refl _
    | face_reenactment => exact hr
    | unknown_manipulation => exact hu
  · have hlip : s.lip_sync ≤ s.face_reenactment := by
      by_contra hc
      push_neg at hc
      exact h2 ⟨le_of_lt hc, le_trans h3 (le_of_lt hc)⟩
    have hswap : s.gan_face_swap ≤ s.face_reenactment := by
      by_contra hc
      push_neg at hc
      exact h1 ⟨le_trans hlip (le_of_lt hc), le_of_lt hc,
        le_trans h3 (le_of_lt hc)⟩
    cases t with
    | authentic => exact absurd rfl ht
    | gan_face_swap => exact hswap
    | lip_sync => exact hlip
    | face_reenactment => exact le_refl _
    | unknown_manipulation => exact h3
  · push_neg at h3
    have hreen : s.face_reenactment ≤ s.unknown_manipulation :=
      le_of_lt h3
    have hlip : s.lip_sync ≤ s.unknown_manipulation := by
      by_contra hc
      push_neg at hc
      exact h2 ⟨le_trans hreen (le_of_lt hc), le_of_lt hc⟩
    have hswap : s.gan_face_swap ≤ s.unknown_manipulation := by
      by_contra hc
      push_neg at hc
      exact h1 ⟨le_trans hlip (le_of_lt hc), le_trans hreen (le_of_lt hc),
        le_of_lt hc⟩
    cases t with
    | authentic => exact absurd rfl ht
    | gan_face_swap => exact hswap
    | lip_sync => exact hlip
    | face_reenactment => exact hreen
    | unknown_manipulation => exact le_refl _

/-- The forensics rules only add non-negative amounts to each bucket. -/
theorem analyzeForensicsRules_mono (th : ClassifierThresholds)
    (m : ForensicsInput) (acc : TypeScores × List ClassifierEvidence)
    (t : FakeType) :
    acc.1.get t ≤ (analyzeForensicsRules th m acc).1.get t := by
  obtain ⟨s, ev⟩ := acc
  simp only [analyzeForensicsRules]
  split_ifs <;> cases t <;> simp [TypeScores.get] <;> linarith

/-- The multimodal rules only add non-negative amounts to each bucket. -/
theorem analyzeMultimodalRules_mono (th : ClassifierThresholds)
    (m : MultimodalInput) (acc : TypeScores × List ClassifierEvidence)
    (t : FakeType) :
    acc.1.get t ≤ (analyzeMultimodalRules th m acc).1.get t := by
  obtain ⟨s, ev⟩ := acc
  simp only [analyzeMultimodalRules]
  rcases m.lip_sync_features with _ | lf <;>
    split_ifs <;> cases t <;> simp [TypeScores.get] <;>
    first
      | linarith
      | (split_ifs <;> simp [TypeScores.get] <;> linarith)

/-- The timeline rules only add non-negative amounts to each bucket. -/
theorem analyzeTimelineRules_mono (st : TimelineStatsInput)
    (acc : TypeScores × List ClassifierEvidence) (t : FakeType) :
    acc.1.get t ≤ (analyzeTimelineRules st acc).1.get t := by
  obtain ⟨s, ev⟩ := acc
  simp only [analyzeTimelineRules]
  split_ifs <;> cases t <;> simp [TypeScores.get] <;> linarith

/-- Every accumulated bucket score dominates its model-step value. -/
theorem classifyScores_ge_model (th : ClassifierThresholds)
    (pred : ModelPrediction) (f : Option ForensicsInput)
    (mm : Option MultimodalInput) (tl : Option TimelineStatsInput)
    (t : FakeType) :
    (classifyModelStep pred).1.get t ≤
      (classifyScores th pred f mm tl).get t := by
  unfold classifyScores classifyAccum
  rcases f with _ | m1 <;> rcases mm with _ | m2 <;> rcases tl with _ | st
  · exact le_refl _
  · exact analyzeTimelineRules_mono st _ t
  · exact analyzeMultimodalRules_mono th m2 _ t
  · exact le_trans (analyzeMultimodalRules_mono th m2 _ t)
      (analyzeTimelineRules_mono st _ t)
  · exact analyzeForensicsRules_mono th m1 _ t
  · exact le_trans (analyzeForensicsRules_mono th m1 _ t)
      (analyzeTimelineRules_mono st _ t)
  · exact le_trans (analyzeForensicsRules_mono th m1 _ t)
      (analyzeMultimodalRules_mono th m2 _ t)
  · exact le_trans (le_trans (analyzeForensicsRules_mono th m1 _ t)
      (analyzeMultimodalRules_mono th m2 _ t))
      (analyzeTimelineRules_mono st _ t)

/-- Every accumulated bucket score is non-negative. -/
theorem classifyScores_nonneg (th : ClassifierThresholds)
    (pred : ModelPrediction) (f : Option ForensicsInput)
    (mm : Option MultimodalInput) (tl : Option TimelineStatsInput)
    (t : FakeType) :
    0 ≤ (classifyScores th pred f mm tl).get t := by
  refine le_trans ?_ (classifyScores_ge_model th pred f mm tl t)
  unfold classifyModelStep
  split_ifs <;> cases t <;> norm_num [TypeScores.get]

/-- When the model predicts REAL above 70, the authentic bucket holds at
least 50. -/
theorem classifyScores_authentic_ge (th : ClassifierThresholds)
    (pred : ModelPrediction) (f : Option ForensicsInput)
    (mm : Option MultimodalInput) (tl : Option TimelineStatsInput)
    (hc : pred.prediction_label = "REAL" ∧ pred.confidence > 70) :
    50 ≤ (classifyScores th pred f mm tl).authentic := by
  have h := classifyScores_ge_model th pred f mm tl FakeType.authentic
  rw [show (classifyModelStep pred).1.get FakeType.authentic = 50 by
    unfold classifyModelStep
    rw [if_pos hc.1, if_pos hc.2]
    norm_num [TypeScores.get]] at h
  exact h

/-- Characterization of `_determine_primary_type` on non-negative
scores. -/
theorem determinePrimaryType_spec (s : TypeScores) (pred : ModelPrediction)
    (hnn : ∀ t : FakeType, 0 ≤ s.get t) :
    ((determinePrimaryType s pred).1 = FakeType.authentic ↔
      (pred.prediction_label = "REAL" ∧ pred.confidence > 70 ∧
        s.authentic > 40)) ∧
    (¬(pred.prediction_label = "REAL" ∧ pred.confidence > 70 ∧
        s.authentic > 40) →
      ((∀ t : FakeType, t ≠ FakeType.authentic → s.get t < 20) →
        (determinePrimaryType s pred).1 = FakeType.unknown_manipulation ∧
        (determinePrimaryType s pred).2 ≤ 50) ∧
      (∀ t0 : FakeType, t0 ≠ FakeType.authentic → 20 ≤ s.get t0 →
        (determinePrimaryType s pred).1 ≠ FakeType.authentic ∧
        (∀ u : FakeType, u ≠ FakeType.authentic →
          s.get u ≤ s.get (determinePrimaryType s pred).1) ∧
        (determinePrimaryType s pred).2 =
          min 95 (s.get (determinePrimaryType s pred).1 /
            (s.gan_face_swap + s.lip_sync + s.face_reenactment +
              s.unknown_manipulation) * 100))) := by
  by_cases hc : pred.prediction_label = "REAL" ∧ pred.confidence > 70 ∧
      s.authentic > 40
  · simp only [determinePrimaryType, if_pos hc]
    exact ⟨by simp [hc], fun hn => absurd hc hn⟩
  · simp only [determinePrimaryType, if_neg hc]
    by_cases hz : s.gan_face_swap = 0 ∧ s.lip_sync = 0 ∧
        s.face_reenactment = 0 ∧ s.unknown_manipulation = 0
    · rw [if_pos hz]
      refine ⟨by simp [hc], fun _ => ⟨fun _ => ⟨rfl, by norm_num⟩, ?_⟩⟩
      intro t0 ht0 h20
      exfalso
      obtain ⟨z1, z2, z3, z4⟩ := hz
      cases t0 with
      | authentic => exact ht0 rfl
      | gan_face_swap => rw [TypeScores.get, z1] at h20; norm_num at h20
      | lip_sync => rw [TypeScores.get, z2] at h20; norm_num at h20
      | face_reenactment => rw [TypeScores.get, z3] at h20; norm_num at h20
      | unknown_manipulation =>
          rw [TypeScores.get, z4] at h20; norm_num at h20
    · rw [if_neg hz]
      by_cases hm : s.get (argmaxFake s) < 20
      · rw [if_pos hm]
        refine ⟨by simp [hc], fun _ => ⟨fun _ => ⟨rfl, min_le_left _ _⟩, ?_⟩⟩
        intro t0 ht0 h20
        exact absurd hm (not_lt.mpr (le_trans h20 (argmaxFake_ge s t0 ht0)))
      · rw [if_neg hm]
        refine ⟨iff_of_false (argmaxFake_ne_authentic s) hc, fun _ => ⟨?_, ?_⟩⟩
        · intro hall
          exact absurd (hall _ (argmaxFake_ne_authentic s)) hm
        · intro t0 ht0 h20
          refine ⟨argmaxFake_ne_authentic s,
            fun u hu => argmaxFake_ge s u hu, ?_⟩
          have htot : s.gan_face_swap + s.lip_sync + s.face_reenactment +
              s.unknown_manipulation > 0 := by
            have h1 := hnn FakeType.gan_face_swap
            have h2 := hnn FakeType.lip_sync
            have h3 := hnn FakeType.face_reenactment
            have h4 := hnn FakeType.unknown_manipulation
            simp only [TypeScores.get] at h1 h2 h3 h4
            cases t0 with
            | authentic => exact absurd rfl ht0
            | gan_face_swap =>
                simp only [TypeScores.get] at h20; linarith
            | lip_sync => simp only [TypeScores.get] at h20; linarith
            | face_reenactment =>
                simp only [TypeScores.get] at h20; linarith
            | unknown_manipulation =>
                simp only [TypeScores.get] at h20; linarith
          rw [if_pos htot]

/-- Claim C3: `classify` picks `authentic` exactly when the model predicts
REAL above 70% (the authentic bucket then necessarily dominates with at
least 50 points); otherwise the primary type is the highest-scoring
non-authentic bucket with confidence equal to its share of the total
non-authentic evidence capped at 95, falling back to
`unknown_manipulation` with confidence at most 50 whenever every
non-authentic bucket (in particular the winning one) scores below 20. -/
theorem c3_primary_type_selection (th : ClassifierThresholds)
    (pred : ModelPrediction) (f : Option ForensicsInput)
    (mm : Option MultimodalInput) (tl : Option TimelineStatsInput) :
    ((classify th pred f mm tl).primary_type = FakeType.authentic ↔
      (pred.prediction_label = "REAL" ∧ pred.confidence > 70 ∧
        (classifyScores th pred f mm tl).authentic > 40)) ∧
    ((classify th pred f mm tl).primary_type = FakeType.authentic ↔
      (pred.prediction_label = "REAL" ∧ pred.confidence > 70)) ∧
    (¬(pred.prediction_label = "REAL" ∧ pred.confidence > 70) →
      ((∀ t : FakeType, t ≠ FakeType.authentic →
          (classifyScores th pred f mm tl).get t < 20) →
        (classify th pred f mm tl).primary_type =
          FakeType.unknown_manipulation ∧
        (classify th pred f mm tl).confidence ≤ 50) ∧
      (∀ t0 : FakeType, t0 ≠ FakeType.authentic →
          20 ≤ (classifyScores th pred f mm tl).get t0 →
        (classify th pred f mm tl).primary_type ≠ FakeType.authentic ∧
        (∀ u : FakeType, u ≠ FakeType.authentic →
          (classifyScores th pred f mm tl).get u ≤
            (classifyScores th pred f mm tl).get
              (classify th pred f mm tl).primary_type) ∧
        (classify th pred f mm tl).confidence =
          min 95 ((classifyScores th pred f mm tl).get
              (classify th pred f mm tl).primary_type /
            ((classifyScores th pred f mm tl).gan_face_swap +
              (classifyScores th pred f mm tl).lip_sync +
              (classifyScores th pred f mm tl).face_reenactment +
              (classifyScores th pred f mm tl).unknown_manipulation) *
            100))) := by
  have hnn := classifyScores_nonneg th pred f mm tl
  have hspec :=
    determinePrimaryType_spec (classifyScores th pred f mm tl) pred hnn
  have hpt : (classify th pred f mm tl).primary_type =
      (determinePrimaryType (classifyScores th pred f mm tl) pred).1 := rfl
  have hcf : (classify th pred f mm tl).confidence =
      (determinePrimaryType (classifyScores th pred f mm tl) pred).2 := rfl
  have hbridge : (pred.prediction_label = "REAL" ∧ pred.confidence > 70 ∧
      (classifyScores th pred f mm tl).authentic > 40) ↔
      (pred.prediction_label = "REAL" ∧ pred.confidence > 70) := by
    constructor
    · exact fun h => ⟨h.1, h.2.1⟩
    · intro h
      refine ⟨h.1, h.2, ?_⟩
      have := classifyScores_authentic_ge th pred f mm tl h
      linarith
  refine ⟨?_, ?_, ?_⟩
  · rw [hpt]; exact hspec.1
  · rw [hpt]; exact hspec.1.trans hbridge
  · intro hn
    have hn' : ¬(pred.prediction_label = "REAL" ∧ pred.confidence > 70 ∧
        (classifyScores th pred f mm tl).authentic > 40) :=
      fun h => hn (hbridge.mp h)
    obtain ⟨ha, hb⟩ := hspec.2 hn'
    constructor
    · intro hall
      obtain ⟨h1, h2⟩ := ha hall
      exact ⟨by rw [hpt]; exact h1, by rw [hcf]; exact h2⟩
    · intro t0 ht0 h20
      obtain ⟨h1, h2, h3⟩ := hb t0 ht0 h20
      exact ⟨by rw [hpt]; exact h1,
        fun u hu => by rw [hpt]; exact h2 u hu,
        by rw [hcf, hpt]; exact h3⟩

/-- Claim C3, witness: with model FAKE@95 and forensics showing face
consistency 50, the only scored bucket is `gan_face_swap` at 25, so the
primary type is `gan_face_swap` with confidence `min 95 (25/25·100) = 95`,
and it is not `authentic`. -/
theorem c3_primary_type_selection_witness :
    (classify defaultClassifierThresholds c3Prediction (some c3Forensics)
        none none).primary_type = FakeType.gan_face_swap ∧
    (classify defaultClassifierThresholds c3Prediction (some c3Forensics)
        none none).confidence = 95 := by
  have hms : classifyModelStep c3Prediction =
      (⟨0, 0, 0, 0, 0⟩, [ClassifierEvidence.modelPredictsFake 95]) := by
    simp [classifyModelStep, c3Prediction]
  have hscores : classifyScores defaultClassifierThresholds c3Prediction
      (some c3Forensics) none none = ⟨0, 25, 0, 0, 0⟩ := by
    simp only [classifyScores, classifyAccum, hms]
    norm_num [analyzeForensicsRules, c3Forensics, defaultClassifierThresholds]
  have h := ((c3_primary_type_selection defaultClassifierThresholds
      c3Prediction (some c3Forensics) none none).2.2
      (by decide)).2 FakeType.gan_face_swap (by simp)
      (by rw [hscores]; norm_num [TypeScores.get])
  obtain ⟨hne, hge, hconf⟩ := h
  have hpt : (classify defaultClassifierThresholds c3Prediction
      (some c3Forensics) none none).primary_type = FakeType.gan_face_swap := by
    have h25 := hge FakeType.gan_face_swap (by simp)
    rw [hscores] at h25
    cases hp : (classify defaultClassifierThresholds c3Prediction
        (some c3Forensics) none none).primary_type <;>
      rw [hp] at h25 hne <;>
      first
        | rfl
        | (exact absurd rfl hne)
        | (norm_num [TypeScores.get] at h25)
  refine ⟨hpt, ?_⟩
  rw [hconf, hpt, hscores]
  norm_num [TypeScores.get]

end SBS
